import Mathlib

/-!
Verification of the generic serialization subsystem of aicompleter
(src/aicompleter/common.py): the functions serialize / deserialize,
the JsonType instance check, and the SerializeHandler registry.

Python values are deeply embedded as the inductive type Value; the
global registry (SerializeHandler._serialize_handlers) and the import
machinery (importlib, used by _get_class) are passed explicitly as
arguments.  Byte strings produced by pickle.dumps are modelled by a
dedicated constructor carrying the pickled value, so that
pickle.loads is its exact inverse (the contract of the external
pickle library); likewise for hex strings of pickled payloads.
-/

namespace ACom

/-- Python type object: defining module, qualified name, and the method
resolution order as a list of qualified names (the type itself first).
issubclass and isinstance are modelled through the mro. -/
structure PyType where
  module : String
  qualname : String
  mro : List String
deriving DecidableEq, Repr

/-- Deep embedding of the Python values handled by common.py.
Capabilities are encoded by the constructor: sobj is an instance of a
Serializable subclass using the default pickling __serialize__; gsObj
is a non-Serializable instance exposing both __getstate__ and
__setstate__; obj is a plain instance with neither capability.
The ident field distinguishes object instances of the same type. -/
inductive Value where
  | none : Value
  | bool (b : Bool) : Value
  | int (n : Int) : Value
  | float (tok : String) : Value
  | strPlain (s : String) : Value
  | strHexPickle (v : Value) : Value
  | bytesRaw (bs : List Nat) : Value
  | bytesPickle (v : Value) : Value
  | list (xs : List Value) : Value
  | tuple (xs : List Value) : Value
  | set (xs : List Value) : Value
  | dict (xs : List (Value × Value)) : Value
  | subScalar (qualname : String) (base : Value) : Value
  | sobj (ty : PyType) (ident : Nat) : Value
  | gsObj (ty : PyType) (ident : Nat) : Value
  | obj (ty : PyType) (ident : Nat) : Value

/-- One Lean constructor for each distinct raise site of common.py. -/
inductive PyErr where
  | cannotSerialize
  | scalarSubclass
  | typeNotSupport
  | unknownError
  | serializerNotJson
  | dataNotJson
  | attributeError
  | cannotDeserialize
  | importError
  | keyError
  | notAClass
  | notSerializable
  | handlerNotSupport
  | unsafePickle
  | unknownTag
  | valueError
  | unpicklingError
  | typeError
deriving DecidableEq, Repr

/-- The method resolution order of the runtime type of a value, as a
list of type names; used by the isinstance checks of SerializeHandler. -/
def typeMRO : Value → List String
  | .none => ["NoneType", "object"]
  | .bool _ => ["bool", "int", "object"]
  | .int _ => ["int", "object"]
  | .float _ => ["float", "object"]
  | .strPlain _ => ["str", "object"]
  | .strHexPickle _ => ["str", "object"]
  | .bytesRaw _ => ["bytes", "object"]
  | .bytesPickle _ => ["bytes", "object"]
  | .list _ => ["list", "object"]
  | .tuple _ => ["tuple", "object"]
  | .set _ => ["set", "object"]
  | .dict _ => ["dict", "object"]
  | .subScalar q b => q :: typeMRO b
  | .sobj ty _ => ty.mro
  | .gsObj ty _ => ty.mro
  | .obj ty _ => ty.mro

/-- isinstance of a value against a type: the type name occurs in the
mro of the runtime type of the value. -/
def isinst (v : Value) (t : PyType) : Bool :=
  (typeMRO v).contains t.qualname

/-- issubclass between types, through the mro of the first. -/
def issub (t k : PyType) : Bool :=
  t.mro.contains k.qualname

/-- isinstance(x, str): true for str and its subclasses. -/
def isinstStr : Value → Bool
  | .strPlain _ => true
  | .strHexPickle _ => true
  | .subScalar _ b => isinstStr b
  | _ => false

mutual

/-- JsonTypeMeta.__instancecheck__ of common.py: scalars are JSON, lists
of JSON values are JSON, dicts are JSON when every key is a str and
every value is JSON; everything else is not. -/
def isJsonType : Value → Bool
  | .strPlain _ => true
  | .strHexPickle _ => true
  | .int _ => true
  | .float _ => true
  | .bool _ => true
  | .none => true
  | .subScalar _ b => isJsonScalarSub b
  | .list xs => isJsonList xs
  | .dict xs => isJsonPairs xs
  | _ => false

/-- A subclass instance of a scalar passes the isinstance scalar test of
JsonTypeMeta exactly when its base is one of the five scalar shapes. -/
def isJsonScalarSub : Value → Bool
  | .strPlain _ => true
  | .strHexPickle _ => true
  | .int _ => true
  | .float _ => true
  | .bool _ => true
  | .none => true
  | .subScalar _ b => isJsonScalarSub b
  | _ => false

def isJsonList : List Value → Bool
  | [] => true
  | x :: xs => isJsonType x && isJsonList xs

def isJsonPairs : List (Value × Value) → Bool
  | [] => true
  | p :: xs => (isinstStr p.1 && isJsonType p.2) && isJsonPairs xs

end

/-- pickle.loads, the inverse of the pickle.dumps modelled by the
bytesPickle constructor; loading arbitrary raw bytes is modelled as an
UnpicklingError, loading a non-bytes value as a TypeError. -/
def pickleLoads : Value → Except PyErr Value
  | .bytesPickle v => .ok v
  | .bytesRaw _ => .error .unpicklingError
  | _ => .error .typeError

/-- Two lowercase hex digits of one byte, as bytes.hex does per byte. -/
def byteHex (n : Nat) : List Char :=
  [Nat.digitChar ((n % 256) / 16), Nat.digitChar (n % 16)]

/-- bytes.hex on a raw byte string. -/
def hexEncode (bs : List Nat) : String :=
  String.mk (bs.flatMap byteHex)

/-- The str produced by calling .hex() on a bytes object. -/
def pyHex : Value → Value
  | .bytesPickle v => .strHexPickle v
  | .bytesRaw bs => .strPlain (hexEncode bs)
  | v => v

/-- Value of one hex digit, if any. -/
def hexVal (c : Char) : Option Nat :=
  if c.isDigit then some (c.toNat - 48)
  else if 97 ≤ c.toNat && c.toNat ≤ 102 then some (c.toNat - 87)
  else if 65 ≤ c.toNat && c.toNat ≤ 70 then some (c.toNat - 55)
  else Option.none

/-- Decoding of an even-length hex character string into bytes. -/
def hexDecode : List Char → Option (List Nat)
  | [] => some []
  | c1 :: c2 :: rest =>
    match hexVal c1, hexVal c2, hexDecode rest with
    | some h, some l, some bs => some ((16 * h + l) :: bs)
    | _, _, _ => Option.none
  | [_] => Option.none

/-- bytes.fromhex: a plain string is decoded digit-wise, the hex image
of a pickled payload decodes back to that pickled byte string. -/
def bytesFromHex : Value → Except PyErr Value
  | .strPlain s =>
    match hexDecode s.data with
    | some bs => .ok (.bytesRaw bs)
    | Option.none => .error .valueError
  | .strHexPickle v => .ok (.bytesPickle v)
  | _ => .error .typeError

/-- State of one SerializeHandler instance: the registered
__serializer and __deserializer functions, either possibly unset. -/
structure HandlerEntry where
  ser : Option (Value → Value)
  deser : Option (Value → Value)

/-- SerializeHandler._serialize_handlers: the process-wide dict from
type to handler instance, in insertion order. -/
abbrev Registry := List (PyType × HandlerEntry)

/-- Lookup of the handler instance cached for a type, by exact key. -/
def lookupHandler (reg : Registry) (t : PyType) : Option HandlerEntry :=
  (reg.find? (fun p => p.1 == t)).map (fun p => p.2)

/-- The handler instance SerializeHandler(t) evaluates to: the cached
one if the type is a key, otherwise a fresh instance with no
serializer or deserializer set. -/
def handlerFor (reg : Registry) (t : PyType) : HandlerEntry :=
  (lookupHandler reg t).getD ⟨Option.none, Option.none⟩

/-- Effect on the registry of SerializeHandler(t).serializer(f):
SerializeHandler.__new__ returns the cached instance when the type is
already a key and caches a fresh one otherwise, then the serializer
method overwrites the __serializer attribute of that instance. -/
def setSerializer (reg : Registry) (t : PyType) (f : Value → Value) : Registry :=
  if (reg.find? (fun p => p.1 == t)).isSome then
    reg.map (fun p => if p.1 == t then (p.1, ⟨some f, p.2.deser⟩) else p)
  else
    reg ++ [(t, ⟨some f, Option.none⟩)]

/-- Effect on the registry of SerializeHandler(t).deserializer(g). -/
def setDeserializer (reg : Registry) (t : PyType) (g : Value → Value) : Registry :=
  if (reg.find? (fun p => p.1 == t)).isSome then
    reg.map (fun p => if p.1 == t then (p.1, ⟨p.2.ser, some g⟩) else p)
  else
    reg ++ [(t, ⟨Option.none, some g⟩)]

/-- SerializeHandler.support on a value: isinstance of the value
against the tuple of all registered types. -/
def support (reg : Registry) (v : Value) : Bool :=
  reg.any (fun p => isinst v p.1)

/-- SerializeHandler.support on a type: issubclass of the type
against the tuple of all registered types. -/
def supportT (reg : Registry) (t : PyType) : Bool :=
  reg.any (fun p => issub t p.1)

/-- SerializeHandler.serialize: apply the registered __serializer -
AttributeError when none was registered - then reject a result that
is not JsonType with a TypeError. -/
def handlerSerialize (e : HandlerEntry) (v : Value) : Except PyErr Value :=
  match e.ser with
  | Option.none => .error .attributeError
  | some f =>
    if isJsonType (f v) then .ok (f v) else .error .serializerNotJson

/-- SerializeHandler.deserialize: reject data that is not JsonType with
a TypeError before invoking the registered __deserializer. -/
def handlerDeserialize (e : HandlerEntry) (d : Value) : Except PyErr Value :=
  if isJsonType d then
    match e.deser with
    | Option.none => .error .attributeError
    | some g => .ok (g d)
  else .error .dataNotJson

/-- SerializeHandler.serializeData: TypeError when no registered type
matches, otherwise serialize with the handler of the first registered
type the value is an instance of, in registry insertion order. -/
def serializeData (reg : Registry) (v : Value) : Except PyErr (PyType × Value) :=
  if support reg v then
    match reg.find? (fun p => isinst v p.1) with
    | some p => (handlerSerialize p.2 v).map (fun d => (p.1, d))
    | Option.none => .error .unknownError
  else .error .typeNotSupport

mutual

/-- serialize of common.py, with the global handler registry passed
explicitly.  Branches in source order: Serializable instances,
list/set/tuple, dict, exact or subclassed scalars, bytes, values of a
registered type, objects with a getstate/setstate pair, and finally
the pickle_all escape hatch.  The recursive calls on container
elements and dict values drop the pickle_all argument, exactly as the
source calls serialize(item) with its default. -/
def serialize (reg : Registry) : Value → Bool → Except PyErr Value
  | v@(.sobj ty _), _ =>
    .ok (.dict [(.strPlain "type", .strPlain "class"),
      (.strPlain "module", .strPlain ty.module),
      (.strPlain "class", .strPlain ty.qualname),
      (.strPlain "data", .bytesPickle v)])
  | .list xs, _ =>
    (serializeList reg xs).map (fun ds =>
      .dict [(.strPlain "type", .strPlain "list"), (.strPlain "data", .list ds)])
  | .set xs, _ =>
    (serializeList reg xs).map (fun ds =>
      .dict [(.strPlain "type", .strPlain "set"), (.strPlain "data", .list ds)])
  | .tuple xs, _ =>
    (serializeList reg xs).map (fun ds =>
      .dict [(.strPlain "type", .strPlain "tuple"), (.strPlain "data", .list ds)])
  | .dict xs, _ =>
    (serializePairs reg xs).map (fun ds =>
      .dict [(.strPlain "type", .strPlain "dict"), (.strPlain "data", .dict ds)])
  | .int n, _ => .ok (.int n)
  | .float tok, _ => .ok (.float tok)
  | .strPlain s, _ => .ok (.strPlain s)
  | .strHexPickle v, _ => .ok (.strHexPickle v)
  | .bool b, _ => .ok (.bool b)
  | .none, _ => .ok .none
  | v@(.subScalar _ _), pickle_all =>
    if pickle_all then
      .ok (.dict [(.strPlain "type", .strPlain "pickle"),
        (.strPlain "data", .bytesPickle v)])
    else .error .scalarSubclass
  | v@(.bytesRaw _), _ =>
    .ok (.dict [(.strPlain "type", .strPlain "bytes"), (.strPlain "data", pyHex v)])
  | v@(.bytesPickle _), _ =>
    .ok (.dict [(.strPlain "type", .strPlain "bytes"), (.strPlain "data", pyHex v)])
  | v@(.gsObj _ _), _ =>
    if support reg v then
      (serializeData reg v).map (fun c =>
        .dict [(.strPlain "type", .strPlain "handler"),
          (.strPlain "module", .strPlain c.1.module),
          (.strPlain "class", .strPlain c.1.qualname),
          (.strPlain "data", c.2)])
    else
      .ok (.dict [(.strPlain "type", .strPlain "secure-pickle"),
        (.strPlain "data", .strHexPickle v)])
  | v@(.obj _ _), pickle_all =>
    if support reg v then
      (serializeData reg v).map (fun c =>
        .dict [(.strPlain "type", .strPlain "handler"),
          (.strPlain "module", .strPlain c.1.module),
          (.strPlain "class", .strPlain c.1.qualname),
          (.strPlain "data", c.2)])
    else if pickle_all then
      .ok (.dict [(.strPlain "type", .strPlain "pickle"),
        (.strPlain "data", .bytesPickle v)])
    else .error .cannotSerialize

/-- The list comprehension serializing container elements; the first
failure propagates as the raised exception does. -/
def serializeList (reg : Registry) : List Value → Except PyErr (List Value)
  | [] => .ok []
  | x :: xs => do
    let d ← serialize reg x false
    let ds ← serializeList reg xs
    .ok (d :: ds)

/-- The dict comprehension of the serialize dict branch: keys are kept
as they are, only the values are serialized, in insertion order. -/
def serializePairs (reg : Registry) : List (Value × Value) → Except PyErr (List (Value × Value))
  | [] => .ok []
  | p :: xs => do
    let d ← serialize reg p.2 false
    let ds ← serializePairs reg xs
    .ok ((p.1, d) :: ds)

end

/-- A Python namespace node reachable while resolving a dotted name:
either a class object or a module/dict holding named members. -/
inductive NS where
  | cls (t : PyType) : NS
  | sub (entries : List (String × NS)) : NS

/-- The ambient import system, for importlib.import_module inside
_get_class: the loadable modules by name. -/
abbrev ImportEnv := List (String × NS)

/-- A resolver dict passed as the global_ argument of deserialize. -/
abbrev GlobalNS := List (String × NS)

/-- str.split of Python with separator ".", written as a structural
recursion: splitDots "A.B" is [A, B] and splitDots "C" is [C]. -/
def splitDotsAux : List Char → List Char → List String
  | [], acc => [String.mk acc.reverse]
  | c :: cs, acc =>
    if c = '.' then String.mk acc.reverse :: splitDotsAux cs []
    else splitDotsAux cs (c :: acc)

/-- The dotted-name split class_.split applied in _get_class and in
the resolver walk of the deserialize class branch. -/
def splitDots (s : String) : List String :=
  splitDotsAux s.data []

/-- The getattr walk of _get_class along the segments of the dotted
class name: a missing member raises AttributeError, as does getattr
of a further segment on a class (modelled classes carry no
attributes). -/
def walkAttrs : NS → List String → Except PyErr NS
  | ns, [] => .ok ns
  | .sub es, s :: rest =>
    match es.find? (fun p => p.1 == s) with
    | some p => walkAttrs p.2 rest
    | Option.none => .error .attributeError
  | .cls _, _ :: _ => .error .attributeError

/-- _get_class of common.py: import the module - ImportError when
the importing system does not know it - walk the dotted class name. -/
def getClass (env : ImportEnv) (module : String) (class_ : String) : Except PyErr NS :=
  match env.find? (fun p => p.1 == module) with
  | some p => walkAttrs p.2 (splitDots class_)
  | Option.none => .error .importError

/-- The subscription walk of the deserialize class branch when a
global_ dict is supplied: each segment indexes with brackets, so a
missing key raises KeyError and indexing into a class raises
TypeError. -/
def walkResolver : NS → List String → Except PyErr NS
  | ns, [] => .ok ns
  | .sub es, s :: rest =>
    match es.find? (fun p => p.1 == s) with
    | some p => walkResolver p.2 rest
    | Option.none => .error .keyError
  | .cls _, _ :: _ => .error .typeError

/-- Indexing data[k] on the modelled dict pairs for a plain string
key, as the deserialize branches do for "type", "module", "class" and
"data"; strings equal to the key match, nothing else is modelled as
comparing equal to a plain string. -/
def dictGet (xs : List (Value × Value)) (k : String) : Option Value :=
  (xs.find? (fun p =>
    match p.1 with
    | .strPlain s => s == k
    | _ => false)).map (fun p => p.2)

theorem sizeOf_dictGet {xs : List (Value × Value)} {k : String} {v : Value}
    (h : dictGet xs k = some v) : sizeOf v < sizeOf xs := by
  induction xs with
  | nil => simp [dictGet] at h
  | cons p rest ih =>
    rw [dictGet, List.find?] at h
    by_cases hp : (match p.1 with
      | .strPlain s => s == k
      | _ => false) = true
    · rw [hp] at h
      simp at h
      subst h
      rcases p with ⟨a, b⟩
      simp
      omega
    · rw [Bool.not_eq_true] at hp
      rw [hp] at h
      have := ih h
      rcases p with ⟨a, b⟩
      simp
      omega

/-- The class-resolution step of the deserialize class branch: with no
global_ the class is found by _get_class - dynamic import of
data["module"] and a getattr walk of data["class"] - and with a
global_ dict it is found by subscripting that dict along the dotted
data["class"], the import system untouched. -/
def resolveClassNS (env : ImportEnv) (entries : List (Value × Value))
    (global_ : Option GlobalNS) : Except PyErr NS :=
  match global_ with
  | Option.none =>
    match dictGet entries "module" with
    | Option.none => .error .keyError
    | some mv =>
      match dictGet entries "class" with
      | Option.none => .error .keyError
      | some cv =>
        match mv with
        | .strPlain m =>
          match cv with
          | .strPlain q => getClass env m q
          | _ =>
            match env.find? (fun p => p.1 == m) with
            | some _ => .error .attributeError
            | Option.none => .error .importError
        | _ => .error .typeError
  | some g =>
    match dictGet entries "class" with
    | Option.none => .error .keyError
    | some (.strPlain q) => walkResolver (.sub g) (splitDots q)
    | some _ => .error .attributeError

/-- The deserialize branch for tag "class": resolve the class, require
it to be a Serializable subclass, then apply the default
Serializable.__deserialize__, which is pickle.loads of the payload. -/
def classBranch (env : ImportEnv) (entries : List (Value × Value))
    (global_ : Option GlobalNS) : Except PyErr Value :=
  match resolveClassNS env entries global_ with
  | .error e => .error e
  | .ok (.sub _) => .error .notAClass
  | .ok (.cls t) =>
    if t.mro.contains "Serializable" then
      match dictGet entries "data" with
      | some payload => pickleLoads payload
      | Option.none => .error .keyError
    else .error .notSerializable

/-- The deserialize branch for tag "bytes": bytes.fromhex of the
payload. -/
def bytesBranch (entries : List (Value × Value)) : Except PyErr Value :=
  match dictGet entries "data" with
  | some d => bytesFromHex d
  | Option.none => .error .keyError

/-- The deserialize branch for tag "handler": the type is always
resolved by _get_class - no resolver is consulted here - and must
satisfy SerializeHandler.support, then the handler instance for it
deserializes the payload. -/
def handlerBranch (env : ImportEnv) (reg : Registry)
    (entries : List (Value × Value)) : Except PyErr Value :=
  match dictGet entries "module" with
  | Option.none => .error .keyError
  | some mv =>
    match dictGet entries "class" with
    | Option.none => .error .keyError
    | some cv =>
      match mv with
      | .strPlain m =>
        match cv with
        | .strPlain q =>
          match getClass env m q with
          | .error e => .error e
          | .ok (.sub _) => .error .handlerNotSupport
          | .ok (.cls t) =>
            if supportT reg t then
              match dictGet entries "data" with
              | some d => handlerDeserialize (handlerFor reg t) d
              | Option.none => .error .keyError
            else .error .handlerNotSupport
        | _ =>
          match env.find? (fun p => p.1 == m) with
          | some _ => .error .attributeError
          | Option.none => .error .importError
      | _ => .error .typeError

/-- The deserialize branch for tag "secure-pickle": pickle.loads of
the hex-decoded payload, permitted unconditionally. -/
def securePickleBranch (entries : List (Value × Value)) : Except PyErr Value :=
  match dictGet entries "data" with
  | some d =>
    match bytesFromHex d with
    | .error e => .error e
    | .ok b => pickleLoads b
  | Option.none => .error .keyError

/-- The deserialize branch for tag "pickle": refused with a TypeError
unless unpickle_all is set, in which case pickle.loads runs on the
payload. -/
def pickleBranch (entries : List (Value × Value)) (unpickle_all : Bool) :
    Except PyErr Value :=
  if unpickle_all then
    match dictGet entries "data" with
    | some d => pickleLoads d
    | Option.none => .error .keyError
  else .error .unsafePickle

mutual

/-- deserialize of common.py, with the ambient import system and the
global handler registry passed explicitly.  Scalars (including
instances of scalar subclasses) return unchanged; any other non-dict
input raises before or at the missing-tag check; a dict dispatches on
its "type" entry through the elif chain of the source, in source
order.  The recursive calls on container elements and dict values
pass neither global_ nor unpickle_all, exactly as the source calls
deserialize(item) with the defaults of both. -/
def deserialize (env : ImportEnv) (reg : Registry) :
    Value → Option GlobalNS → Bool → Except PyErr Value
  | .int n, _, _ => .ok (.int n)
  | .float tok, _, _ => .ok (.float tok)
  | .strPlain s, _, _ => .ok (.strPlain s)
  | .strHexPickle v, _, _ => .ok (.strHexPickle v)
  | .bool b, _, _ => .ok (.bool b)
  | .none, _, _ => .ok .none
  | .subScalar q b, _, _ => .ok (.subScalar q b)
  | .dict entries, global_, unpickle_all =>
    match dictGet entries "type" with
    | Option.none => .error .cannotDeserialize
    | some (.strPlain tag) =>
      if tag = "class" then classBranch env entries global_
      else if tag = "list" then
        match hd : dictGet entries "data" with
        | some (.list ds) => (deserializeList env reg ds).map (fun vs => .list vs)
        | some _ => .error .typeError
        | Option.none => .error .keyError
      else if tag = "set" then
        match hd : dictGet entries "data" with
        | some (.list ds) => (deserializeList env reg ds).map (fun vs => .set vs)
        | some _ => .error .typeError
        | Option.none => .error .keyError
      else if tag = "tuple" then
        match hd : dictGet entries "data" with
        | some (.list ds) => (deserializeList env reg ds).map (fun vs => .tuple vs)
        | some _ => .error .typeError
        | Option.none => .error .keyError
      else if tag = "dict" then
        match hd : dictGet entries "data" with
        | some (.dict ps) => (deserializePairs env reg ps).map (fun vs => .dict vs)
        | some _ => .error .attributeError
        | Option.none => .error .keyError
      else if tag = "bytes" then bytesBranch entries
      else if tag = "handler" then handlerBranch env reg entries
      else if tag = "secure-pickle" then securePickleBranch entries
      else if tag = "pickle" then pickleBranch entries unpickle_all
      else .error .unknownTag
    | some _ => .error .unknownTag
  | .list _, _, _ => .error .cannotDeserialize
  | .tuple _, _, _ => .error .cannotDeserialize
  | .set _, _, _ => .error .cannotDeserialize
  | .bytesRaw _, _, _ => .error .typeError
  | .bytesPickle _, _, _ => .error .typeError
  | .sobj _ _, _, _ => .error .typeError
  | .gsObj _ _, _, _ => .error .typeError
  | .obj _ _, _, _ => .error .typeError
termination_by v _ _ => sizeOf v
decreasing_by
all_goals simp_wf
all_goals first
  | omega
  | (have hs := sizeOf_dictGet hd; simp at hs ⊢; omega)

/-- The list comprehension deserializing container elements. -/
def deserializeList (env : ImportEnv) (reg : Registry) :
    List Value → Except PyErr (List Value)
  | [] => .ok []
  | x :: xs => do
    let v ← deserialize env reg x Option.none false
    let vs ← deserializeList env reg xs
    .ok (v :: vs)
termination_by xs => sizeOf xs
decreasing_by
all_goals simp_wf
all_goals omega

/-- The dict comprehension of the deserialize dict branch: keys are
kept as they are, only the values are deserialized, in order. -/
def deserializePairs (env : ImportEnv) (reg : Registry) :
    List (Value × Value) → Except PyErr (List (Value × Value))
  | [] => .ok []
  | p :: xs => do
    let v ← deserialize env reg p.2 Option.none false
    let vs ← deserializePairs env reg xs
    .ok ((p.1, v) :: vs)
termination_by xs => sizeOf xs
decreasing_by
all_goals simp_wf
all_goals (first
  | omega
  | (obtain ⟨a, b⟩ := p; simp; omega))

end

mutual

/-- The fragment of claim C1: values built purely from the recognized
scalar primitives, lists, tuples, and string-keyed mappings. -/
def isPure : Value → Bool
  | .none => true
  | .bool _ => true
  | .int _ => true
  | .float _ => true
  | .strPlain _ => true
  | .list xs => isPureList xs
  | .tuple xs => isPureList xs
  | .dict xs => isPurePairs xs
  | _ => false

def isPureList : List Value → Bool
  | [] => true
  | x :: xs => isPure x && isPureList xs

def isPurePairs : List (Value × Value) → Bool
  | [] => true
  | p :: xs =>
    (match p.1 with
     | .strPlain _ => true
     | _ => false) && isPure p.2 && isPurePairs xs

end

theorem serialize_listNode (reg : Registry) (xs : List Value) (pa : Bool) :
    serialize reg (.list xs) pa = (serializeList reg xs).map (fun ds =>
      .dict [(.strPlain "type", .strPlain "list"), (.strPlain "data", .list ds)]) := rfl

theorem serialize_tupleNode (reg : Registry) (xs : List Value) (pa : Bool) :
    serialize reg (.tuple xs) pa = (serializeList reg xs).map (fun ds =>
      .dict [(.strPlain "type", .strPlain "tuple"), (.strPlain "data", .list ds)]) := rfl

theorem serialize_dictNode (reg : Registry) (xs : List (Value × Value)) (pa : Bool) :
    serialize reg (.dict xs) pa = (serializePairs reg xs).map (fun ds =>
      .dict [(.strPlain "type", .strPlain "dict"), (.strPlain "data", .dict ds)]) := rfl

theorem deserialize_listNode (env : ImportEnv) (reg : Registry) (ds : List Value)
    (g : Option GlobalNS) (u : Bool) :
    deserialize env reg (.dict [(.strPlain "type", .strPlain "list"),
      (.strPlain "data", .list ds)]) g u
    = (deserializeList env reg ds).map (fun vs => Value.list vs) := by
  simp [deserialize, dictGet, List.find?]

theorem deserialize_tupleNode (env : ImportEnv) (reg : Registry) (ds : List Value)
    (g : Option GlobalNS) (u : Bool) :
    deserialize env reg (.dict [(.strPlain "type", .strPlain "tuple"),
      (.strPlain "data", .list ds)]) g u
    = (deserializeList env reg ds).map (fun vs => Value.tuple vs) := by
  simp [deserialize, dictGet, List.find?]

theorem deserialize_dictNode (env : ImportEnv) (reg : Registry)
    (ps : List (Value × Value)) (g : Option GlobalNS) (u : Bool) :
    deserialize env reg (.dict [(.strPlain "type", .strPlain "dict"),
      (.strPlain "data", .dict ps)]) g u
    = (deserializePairs env reg ps).map (fun vs => Value.dict vs) := by
  simp [deserialize, dictGet, List.find?]

mutual

theorem rt_value : ∀ (v : Value), isPure v = true → ∀ (env : ImportEnv)
    (reg : Registry) (g : Option GlobalNS) (u : Bool),
    ∃ s, serialize reg v false = .ok s ∧ deserialize env reg s g u = .ok v
  | .none, _, env, reg, g, u => ⟨.none, rfl, by simp [deserialize]⟩
  | .bool b, _, env, reg, g, u => ⟨.bool b, rfl, by simp [deserialize]⟩
  | .int n, _, env, reg, g, u => ⟨.int n, rfl, by simp [deserialize]⟩
  | .float t, _, env, reg, g, u => ⟨.float t, rfl, by simp [deserialize]⟩
  | .strPlain s, _, env, reg, g, u => ⟨.strPlain s, rfl, by simp [deserialize]⟩
  | .list xs, h, env, reg, g, u => by
    rw [isPure] at h
    obtain ⟨ds, h1, h2⟩ := rt_list xs h env reg
    exact ⟨_, by rw [serialize_listNode, h1]; rfl,
      by rw [deserialize_listNode, h2]; rfl⟩
  | .tuple xs, h, env, reg, g, u => by
    rw [isPure] at h
    obtain ⟨ds, h1, h2⟩ := rt_list xs h env reg
    exact ⟨_, by rw [serialize_tupleNode, h1]; rfl,
      by rw [deserialize_tupleNode, h2]; rfl⟩
  | .dict xs, h, env, reg, g, u => by
    rw [isPure] at h
    obtain ⟨ds, h1, h2⟩ := rt_pairs xs h env reg
    exact ⟨_, by rw [serialize_dictNode, h1]; rfl,
      by rw [deserialize_dictNode, h2]; rfl⟩

theorem rt_list : ∀ (xs : List Value), isPureList xs = true → ∀ (env : ImportEnv)
    (reg : Registry),
    ∃ ds, serializeList reg xs = .ok ds ∧ deserializeList env reg ds = .ok xs
  | [], _, env, reg => ⟨[], rfl, by simp [deserializeList]⟩
  | x :: xs, h, env, reg => by
    rw [isPureList, Bool.and_eq_true] at h
    obtain ⟨s, hs1, hs2⟩ := rt_value x h.1 env reg Option.none false
    obtain ⟨ds, hd1, hd2⟩ := rt_list xs h.2 env reg
    refine ⟨s :: ds, ?_, ?_⟩
    · rw [serializeList]
      simp [hs1, hd1, Bind.bind, Except.bind]
    · rw [deserializeList]
      simp [hs2, hd2, Bind.bind, Except.bind]

theorem rt_pairs : ∀ (xs : List (Value × Value)), isPurePairs xs = true →
    ∀ (env : ImportEnv) (reg : Registry),
    ∃ ds, serializePairs reg xs = .ok ds ∧ deserializePairs env reg ds = .ok xs
  | [], _, env, reg => ⟨[], rfl, by simp [deserializePairs]⟩
  | p :: xs, h, env, reg => by
    rw [isPurePairs, Bool.and_eq_true, Bool.and_eq_true] at h
    obtain ⟨s, hs1, hs2⟩ := rt_value p.2 h.1.2 env reg Option.none false
    obtain ⟨ds, hd1, hd2⟩ := rt_pairs xs h.2 env reg
    refine ⟨(p.1, s) :: ds, ?_, ?_⟩
    · rw [serializePairs]
      simp [hs1, hd1, Bind.bind, Except.bind]
    · rw [deserializePairs]
      simp [hs2, hd2, Bind.bind, Except.bind]

end

/-- C1: for every value built purely from the recognized scalar
primitives (null, bool, int, float, string), lists, tuples, and
string-keyed mappings thereof, deserialize of serialize returns the
original value - structural equality of the embedding, so the element
order of lists and tuples and the insertion order of mapping entries
are reproduced exactly.  The statement holds for every registry and
importing system, resolver argument and unpickle_all flag. -/
theorem c1_roundtrip (env : ImportEnv) (reg : Registry) (v : Value)
    (h : isPure v = true) (global_ : Option GlobalNS) (unpickle_all : Bool) :
    ∃ s, serialize reg v false = .ok s ∧
      deserialize env reg s global_ unpickle_all = .ok v :=
  rt_value v h env reg global_ unpickle_all

/-- Witness for C1 at the mapping
b maps to 2, a maps to [1, "x", None, (True, 1.5)]. -/
theorem c1_roundtrip_witness :
    isPure (.dict [(.strPlain "b", .int 2),
      (.strPlain "a", .list [.int 1, .strPlain "x", .none,
        .tuple [.bool true, .float "1.5"]])]) = true ∧
    ∃ s, serialize [] (.dict [(.strPlain "b", .int 2),
      (.strPlain "a", .list [.int 1, .strPlain "x", .none,
        .tuple [.bool true, .float "1.5"]])]) false = .ok s ∧
      deserialize [] [] s Option.none false
        = .ok (.dict [(.strPlain "b", .int 2),
          (.strPlain "a", .list [.int 1, .strPlain "x", .none,
            .tuple [.bool true, .float "1.5"]])]) :=
  ⟨by decide, c1_roundtrip [] [] _ (by decide) Option.none false⟩

/-- C2: for an object of a type with none of the recognized shapes -
not Serializable, not a container, not a scalar or scalar subclass,
not bytes, its type not registered (the hypothesis), and without a
getstate/setstate pair - serialize with pickle_all produces a pickle
node; deserializing it without unpickle_all fails with the TypeError
of the pickle refusal, while with unpickle_all it returns a value
equal to the original. -/
theorem c2_security (env : ImportEnv) (reg : Registry) (ty : PyType) (i : Nat)
    (h : support reg (.obj ty i) = false) :
    (serialize reg (.obj ty i) true).bind
      (fun s => deserialize env reg s Option.none false) = .error .unsafePickle ∧
    (serialize reg (.obj ty i) true).bind
      (fun s => deserialize env reg s Option.none true) = .ok (.obj ty i) := by
  constructor
  · simp [serialize, h, deserialize, dictGet, List.find?, pickleBranch,
      Bind.bind, Except.bind]
  · simp [serialize, h, deserialize, dictGet, List.find?, pickleBranch,
      pickleLoads, Bind.bind, Except.bind]

/-- Witness for C2: an instance of an unregistered plain type, with
the empty import system and the empty registry. -/
theorem c2_security_witness :
    support [] (.obj ⟨"m", "Opaque", ["Opaque", "object"]⟩ 0) = false ∧
    ((serialize [] (.obj ⟨"m", "Opaque", ["Opaque", "object"]⟩ 0) true).bind
      (fun s => deserialize [] [] s Option.none false) = .error .unsafePickle ∧
    (serialize [] (.obj ⟨"m", "Opaque", ["Opaque", "object"]⟩ 0) true).bind
      (fun s => deserialize [] [] s Option.none true)
        = .ok (.obj ⟨"m", "Opaque", ["Opaque", "object"]⟩ 0)) :=
  ⟨by decide, c2_security [] [] ⟨"m", "Opaque", ["Opaque", "object"]⟩ 0 (by decide)⟩

/-- C8 counterexample: serialize(42) evaluates to the bare scalar 42,
which is not the tagged Primitive node the claim requires. -/
theorem c8_cex :
    serialize [] (.int 42) false = .ok (.int 42) ∧
    Value.int 42 ≠ .dict [(.strPlain "type", .strPlain "Primitive"),
      (.strPlain "data", .int 42)] :=
  ⟨rfl, fun h => nomatch h⟩

/-- C8 amended: serialize(42) returns the untagged scalar 42 itself,
and deserialize(42) returns 42, for every registry, import system,
resolver argument and unpickle_all flag. -/
theorem c8_amended (env : ImportEnv) (reg : Registry) (g : Option GlobalNS)
    (u : Bool) :
    serialize reg (.int 42) false = .ok (.int 42) ∧
    deserialize env reg (.int 42) g u = .ok (.int 42) :=
  ⟨rfl, by simp [deserialize]⟩

/-- A list nested to depth n around the scalar 0. -/
def nested : Nat → Value
  | 0 => .int 0
  | n + 1 => .list [nested n]

/-- The serialized form of nested n. -/
def serNested : Nat → Value
  | 0 => .int 0
  | n + 1 => .dict [(.strPlain "type", .strPlain "list"),
      (.strPlain "data", .list [serNested n])]

theorem serialize_nested (reg : Registry) :
    ∀ n, serialize reg (nested n) false = .ok (serNested n)
  | 0 => rfl
  | n + 1 => by
    rw [nested, serNested, serialize_listNode]
    simp [serializeList, serialize_nested reg n, Bind.bind, Except.bind, Except.map]

theorem deserialize_nested (env : ImportEnv) (reg : Registry) :
    ∀ n (g : Option GlobalNS) (u : Bool),
      deserialize env reg (serNested n) g u = .ok (nested n)
  | 0, g, u => by simp [serNested, nested, deserialize]
  | n + 1, g, u => by
    rw [serNested, deserialize_listNode]
    simp [deserializeList, deserialize_nested env reg n Option.none false,
      nested, Bind.bind, Except.bind, Except.map]

/-- C6 counterexample: at nesting depth 100000 - deeper than any
plausible configured maximum - both serialize and deserialize succeed
and return the full value; neither fails with a DepthExceeded error,
and indeed no such error path exists in the code. -/
theorem c6_cex :
    serialize [] (nested 100000) false = .ok (serNested 100000) ∧
    deserialize [] [] (serNested 100000) Option.none false = .ok (nested 100000) :=
  ⟨serialize_nested [] 100000, deserialize_nested [] [] 100000 Option.none false⟩

/-- C6 amended: serialize and deserialize impose no depth bound at
all: on a list nested to any depth n they recurse to the bottom and
succeed, so no DepthExceeded failure is ever raised (the stack guard
the spec asks for does not exist in the code). -/
theorem c6_amended (env : ImportEnv) (reg : Registry) (n : Nat)
    (g : Option GlobalNS) (u : Bool) :
    serialize reg (nested n) false = .ok (serNested n) ∧
    deserialize env reg (serNested n) g u = .ok (nested n) :=
  ⟨serialize_nested reg n, deserialize_nested env reg n g u⟩

mutual

/-- Inputs whose successful default-path serialization stays inside
JsonType: no Serializable instance anywhere (its node embeds the raw
pickle bytes) and no mapping key that is not a str (keys are carried
into the output unserialized). -/
def cleanV : Value → Bool
  | .sobj _ _ => false
  | .list xs => cleanL xs
  | .tuple xs => cleanL xs
  | .set xs => cleanL xs
  | .dict xs => cleanP xs
  | _ => true

def cleanL : List Value → Bool
  | [] => true
  | x :: xs => cleanV x && cleanL xs

def cleanP : List (Value × Value) → Bool
  | [] => true
  | p :: xs => isinstStr p.1 && cleanV p.2 && cleanP xs

end

theorem serializeData_json (reg : Registry) (v : Value) (t : PyType) (d : Value)
    (h : serializeData reg v = .ok (t, d)) : isJsonType d = true := by
  rw [serializeData] at h
  split at h
  · split at h
    · rename_i p hp
      rw [handlerSerialize] at h
      split at h
      · simp [Except.map] at h
      · rename_i f hf
        split at h
        · rename_i hj
          simp only [Except.map, Except.ok.injEq, Prod.mk.injEq] at h
          rw [← h.2]
          exact hj
        · simp [Except.map] at h
    · exact absurd h (by simp)
  · exact absurd h (by simp)

mutual

theorem json_value : ∀ (v : Value), cleanV v = true → ∀ (reg : Registry)
    (out : Value), serialize reg v false = .ok out → isJsonType out = true
  | .none, _, reg, out, hs => by
    simp only [serialize, Except.ok.injEq] at hs; subst hs; rfl
  | .bool b, _, reg, out, hs => by
    simp only [serialize, Except.ok.injEq] at hs; subst hs; rfl
  | .int n, _, reg, out, hs => by
    simp only [serialize, Except.ok.injEq] at hs; subst hs; rfl
  | .float t, _, reg, out, hs => by
    simp only [serialize, Except.ok.injEq] at hs; subst hs; rfl
  | .strPlain s, _, reg, out, hs => by
    simp only [serialize, Except.ok.injEq] at hs; subst hs; rfl
  | .strHexPickle v, _, reg, out, hs => by
    simp only [serialize, Except.ok.injEq] at hs; subst hs; rfl
  | .subScalar q b, _, reg, out, hs => by
    simp [serialize] at hs
  | .bytesRaw bs, _, reg, out, hs => by
    simp only [serialize, pyHex, Except.ok.injEq] at hs; subst hs; rfl
  | .bytesPickle v, _, reg, out, hs => by
    simp only [serialize, pyHex, Except.ok.injEq] at hs; subst hs; rfl
  | .sobj ty i, hc, reg, out, hs => nomatch hc
  | .list xs, hc, reg, out, hs => by
    rw [cleanV] at hc
    rw [serialize_listNode] at hs
    cases hsl : serializeList reg xs with
    | error e => rw [hsl] at hs; simp [Except.map] at hs
    | ok ds =>
      rw [hsl] at hs
      simp only [Except.map, Except.ok.injEq] at hs
      subst hs
      have hd := json_list xs hc reg ds hsl
      simp [isJsonType, isJsonPairs, isinstStr, hd]
  | .tuple xs, hc, reg, out, hs => by
    rw [cleanV] at hc
    rw [serialize_tupleNode] at hs
    cases hsl : serializeList reg xs with
    | error e => rw [hsl] at hs; simp [Except.map] at hs
    | ok ds =>
      rw [hsl] at hs
      simp only [Except.map, Except.ok.injEq] at hs
      subst hs
      have hd := json_list xs hc reg ds hsl
      simp [isJsonType, isJsonPairs, isinstStr, hd]
  | .set xs, hc, reg, out, hs => by
    rw [cleanV] at hc
    cases hsl : serializeList reg xs with
    | error e =>
      rw [show serialize reg (.set xs) false = (serializeList reg xs).map
        (fun ds => .dict [(.strPlain "type", .strPlain "set"),
          (.strPlain "data", .list ds)]) from rfl, hsl] at hs
      simp [Except.map] at hs
    | ok ds =>
      rw [show serialize reg (.set xs) false = (serializeList reg xs).map
        (fun ds => .dict [(.strPlain "type", .strPlain "set"),
          (.strPlain "data", .list ds)]) from rfl, hsl] at hs
      simp only [Except.map, Except.ok.injEq] at hs
      subst hs
      have hd := json_list xs hc reg ds hsl
      simp [isJsonType, isJsonPairs, isinstStr, hd]
  | .dict xs, hc, reg, out, hs => by
    rw [cleanV] at hc
    rw [serialize_dictNode] at hs
    cases hsl : serializePairs reg xs with
    | error e => rw [hsl] at hs; simp [Except.map] at hs
    | ok ds =>
      rw [hsl] at hs
      simp only [Except.map, Except.ok.injEq] at hs
      subst hs
      have hd := json_pairs xs hc reg ds hsl
      simp [isJsonType, isJsonPairs, isinstStr, hd]
  | .gsObj ty i, _, reg, out, hs => by
    rw [serialize] at hs
    split at hs
    · cases hsd : serializeData reg (.gsObj ty i) with
      | error e => rw [hsd] at hs; simp [Except.map] at hs
      | ok c =>
        rw [hsd] at hs
        simp only [Except.map, Except.ok.injEq] at hs
        subst hs
        have hd := serializeData_json reg (.gsObj ty i) c.1 c.2 (by rw [hsd])
        simp [isJsonType, isJsonPairs, isinstStr, hd]
    · simp only [Except.ok.injEq] at hs; subst hs; rfl
  | .obj ty i, _, reg, out, hs => by
    rw [serialize] at hs
    split at hs
    · cases hsd : serializeData reg (.obj ty i) with
      | error e => rw [hsd] at hs; simp [Except.map] at hs
      | ok c =>
        rw [hsd] at hs
        simp only [Except.map, Except.ok.injEq] at hs
        subst hs
        have hd := serializeData_json reg (.obj ty i) c.1 c.2 (by rw [hsd])
        simp [isJsonType, isJsonPairs, isinstStr, hd]
    · simp at hs

theorem json_list : ∀ (xs : List Value), cleanL xs = true → ∀ (reg : Registry)
    (ds : List Value), serializeList reg xs = .ok ds → isJsonList ds = true
  | [], _, reg, ds, hs => by
    simp only [serializeList, Except.ok.injEq] at hs; subst hs; rfl
  | x :: xs, hc, reg, ds, hs => by
    rw [cleanL, Bool.and_eq_true] at hc
    rw [serializeList] at hs
    cases h1 : serialize reg x false with
    | error e => simp [h1, Bind.bind, Except.bind] at hs
    | ok d =>
      cases h2 : serializeList reg xs with
      | error e => simp [h1, h2, Bind.bind, Except.bind] at hs
      | ok ds2 =>
        simp only [h1, h2, Bind.bind, Except.bind, Except.ok.injEq] at hs
        subst hs
        have i1 := json_value x hc.1 reg d h1
        have i2 := json_list xs hc.2 reg ds2 h2
        simp [isJsonList, i1, i2]

theorem json_pairs : ∀ (xs : List (Value × Value)), cleanP xs = true →
    ∀ (reg : Registry) (ds : List (Value × Value)),
    serializePairs reg xs = .ok ds → isJsonPairs ds = true
  | [], _, reg, ds, hs => by
    simp only [serializePairs, Except.ok.injEq] at hs; subst hs; rfl
  | p :: xs, hc, reg, ds, hs => by
    rw [cleanP, Bool.and_eq_true, Bool.and_eq_true] at hc
    rw [serializePairs] at hs
    cases h1 : serialize reg p.2 false with
    | error e => simp [h1, Bind.bind, Except.bind] at hs
    | ok d =>
      cases h2 : serializePairs reg xs with
      | error e => simp [h1, h2, Bind.bind, Except.bind] at hs
      | ok ds2 =>
        simp only [h1, h2, Bind.bind, Except.bind, Except.ok.injEq] at hs
        subst hs
        have i1 := json_value p.2 hc.1.2 reg d h1
        have i2 := json_pairs xs hc.2 reg ds2 h2
        simp [isJsonPairs, hc.1.1, i1, i2]

end

/-- C3 counterexample: an instance of a Serializable subclass with the
default pickling __serialize__ is serialized successfully on the
default path (pickle_all false), yet the produced node carries the raw
pickle byte string in its data field, so the result is not a JsonType
tree. -/
theorem c3_cex :
    serialize [] (.sobj ⟨"m", "K", ["K", "Serializable", "object"]⟩ 0) false
      = .ok (.dict [(.strPlain "type", .strPlain "class"),
        (.strPlain "module", .strPlain "m"),
        (.strPlain "class", .strPlain "K"),
        (.strPlain "data",
          .bytesPickle (.sobj ⟨"m", "K", ["K", "Serializable", "object"]⟩ 0))]) ∧
    isJsonType (.dict [(.strPlain "type", .strPlain "class"),
        (.strPlain "module", .strPlain "m"),
        (.strPlain "class", .strPlain "K"),
        (.strPlain "data",
          .bytesPickle (.sobj ⟨"m", "K", ["K", "Serializable", "object"]⟩ 0))])
      = false :=
  ⟨rfl, rfl⟩

/-- C3 amended: for every value containing no Serializable instance
and no non-string mapping key, a successful serialize with pickle_all
false returns a JsonType tree - JSON-safe scalars, lists, and
string-keyed mappings only, no raw byte sequence anywhere - and a
byte-sequence input is lowered to a node whose payload is its
hex-encoded string. -/
theorem c3_amended :
    (∀ (reg : Registry) (v : Value), cleanV v = true →
      ∀ (out : Value), serialize reg v false = .ok out → isJsonType out = true) ∧
    (∀ (reg : Registry) (bs : List Nat), serialize reg (.bytesRaw bs) false
      = .ok (.dict [(.strPlain "type", .strPlain "bytes"),
        (.strPlain "data", .strPlain (hexEncode bs))])) :=
  ⟨fun reg v hc out hs => json_value v hc reg out hs, fun _ _ => rfl⟩

/-- Witness for C3 at the mapping k maps to the byte 0xab. -/
theorem c3_amended_witness :
    cleanV (.dict [(.strPlain "k", .bytesRaw [171])]) = true ∧
    serialize [] (.dict [(.strPlain "k", .bytesRaw [171])]) false
      = .ok (.dict [(.strPlain "type", .strPlain "dict"),
        (.strPlain "data", .dict [(.strPlain "k",
          .dict [(.strPlain "type", .strPlain "bytes"),
            (.strPlain "data", .strPlain "ab")])])]) ∧
    isJsonType (.dict [(.strPlain "type", .strPlain "dict"),
        (.strPlain "data", .dict [(.strPlain "k",
          .dict [(.strPlain "type", .strPlain "bytes"),
            (.strPlain "data", .strPlain "ab")])])]) = true :=
  ⟨by decide, by rfl, c3_amended.1 [] (.dict [(.strPlain "k", .bytesRaw [171])])
    (by decide) _ (by rfl)⟩

theorem serializePairs_keys (reg : Registry) :
    ∀ (xs ds : List (Value × Value)), serializePairs reg xs = .ok ds →
      ds.map Prod.fst = xs.map Prod.fst
  | [], ds, hs => by
    simp only [serializePairs, Except.ok.injEq] at hs; subst hs; rfl
  | p :: xs, ds, hs => by
    rw [serializePairs] at hs
    cases h1 : serialize reg p.2 false with
    | error e => simp [h1, Bind.bind, Except.bind] at hs
    | ok d =>
      cases h2 : serializePairs reg xs with
      | error e => simp [h1, h2, Bind.bind, Except.bind] at hs
      | ok ds2 =>
        simp only [h1, h2, Bind.bind, Except.bind, Except.ok.injEq] at hs
        subst hs
        simp [serializePairs_keys reg xs ds2 h2]

/-- C7 counterexample: serializing the mapping with the single
non-primitive key (1, 2) keeps the raw tuple object as the key of the
produced Mapping - the key is not recursively serialized, while the
tagged node that serializing (1, 2) actually produces is different
from the raw tuple.  Non-primitive keys are therefore not lowered to
a representable form. -/
theorem c7_cex :
    serialize [] (.dict [(.tuple [.int 1, .int 2], .strPlain "x")]) false
      = .ok (.dict [(.strPlain "type", .strPlain "dict"),
        (.strPlain "data", .dict [(.tuple [.int 1, .int 2], .strPlain "x")])]) ∧
    serialize [] (.tuple [.int 1, .int 2]) false
      ≠ .ok (.tuple [.int 1, .int 2]) := by
  refine ⟨rfl, ?_⟩
  intro h
  rw [show serialize [] (.tuple [.int 1, .int 2]) false
    = .ok (.dict [(.strPlain "type", .strPlain "tuple"),
      (.strPlain "data", .list [.int 1, .int 2])]) from rfl] at h
  simp at h

/-- C7 amended: serialize on a mapping produces a Mapping node whose
entries keep each key exactly as it was - keys are not serialized, so
only keys that are already portable stay representable - while each
value is recursively serialized, and entry insertion order is
preserved. -/
theorem c7_amended (reg : Registry) (xs ds : List (Value × Value))
    (h : serializePairs reg xs = .ok ds) :
    serialize reg (.dict xs) false
      = .ok (.dict [(.strPlain "type", .strPlain "dict"),
        (.strPlain "data", .dict ds)]) ∧
    ds.map Prod.fst = xs.map Prod.fst := by
  constructor
  · rw [serialize_dictNode, h]; rfl
  · exact serializePairs_keys reg xs ds h

/-- Witness for C7 at the mapping of Scenario D: b maps to 2, then a
maps to 1. -/
theorem c7_amended_witness :
    serializePairs [] [(.strPlain "b", .int 2), (.strPlain "a", .int 1)]
      = .ok [(.strPlain "b", .int 2), (.strPlain "a", .int 1)] ∧
    (serialize [] (.dict [(.strPlain "b", .int 2), (.strPlain "a", .int 1)]) false
      = .ok (.dict [(.strPlain "type", .strPlain "dict"),
        (.strPlain "data", .dict [(.strPlain "b", .int 2), (.strPlain "a", .int 1)])]) ∧
    ([(.strPlain "b", .int 2), (.strPlain "a", .int 1)] :
        List (Value × Value)).map Prod.fst
      = ([(.strPlain "b", .int 2), (.strPlain "a", .int 1)] :
        List (Value × Value)).map Prod.fst) :=
  ⟨rfl, c7_amended [] [(.strPlain "b", .int 2), (.strPlain "a", .int 1)]
    [(.strPlain "b", .int 2), (.strPlain "a", .int 1)] rfl⟩

theorem deserialize_classNode (env : ImportEnv) (reg : Registry)
    (entries : List (Value × Value)) (g : Option GlobalNS) (u : Bool)
    (h : dictGet entries "type" = some (.strPlain "class")) :
    deserialize env reg (.dict entries) g u = classBranch env entries g := by
  simp [deserialize, h]

theorem deserialize_classNodeHead (env : ImportEnv) (reg : Registry)
    (rest : List (Value × Value)) (g : Option GlobalNS) (u : Bool) :
    deserialize env reg
      (.dict ((.strPlain "type", .strPlain "class") :: rest)) g u
      = classBranch env ((.strPlain "type", .strPlain "class") :: rest) g :=
  deserialize_classNode env reg _ g u rfl

theorem deserializeList_nil (env : ImportEnv) (reg : Registry) :
    deserializeList env reg [] = .ok [] := by
  rw [deserializeList]

theorem deserializeList_cons (env : ImportEnv) (reg : Registry) (x : Value)
    (xs : List Value) :
    deserializeList env reg (x :: xs) = (do
      let v ← deserialize env reg x Option.none false
      let vs ← deserializeList env reg xs
      Except.ok (v :: vs)) := by
  rw [deserializeList]

/-- C4 amended: for a ClassInstance node at the root of the input,
when a global_ resolver dict is supplied, deserialization never
consults the import system: its result is the same under any two
importing environments.  (The counterexample shows this fails for nested
ClassInstance nodes, because the recursive calls drop global_.) -/
theorem c4_amended (env1 env2 : ImportEnv) (reg : Registry)
    (entries : List (Value × Value)) (g : GlobalNS) (u : Bool)
    (h : dictGet entries "type" = some (.strPlain "class")) :
    deserialize env1 reg (.dict entries) (some g) u
      = deserialize env2 reg (.dict entries) (some g) u := by
  rw [deserialize_classNode env1 reg entries (some g) u h,
    deserialize_classNode env2 reg entries (some g) u h]
  rfl

/-- Witness for C4 at a root class node for class C of module m, with
a resolver carrying C, under the empty and a populated import
system. -/
theorem c4_amended_witness :
    dictGet [(.strPlain "type", .strPlain "class"),
      (.strPlain "module", .strPlain "m"),
      (.strPlain "class", .strPlain "C"),
      (.strPlain "data",
        .bytesPickle (.sobj ⟨"m", "C", ["C", "Serializable", "object"]⟩ 5))] "type"
      = some (.strPlain "class") ∧
    deserialize [] [] (.dict [(.strPlain "type", .strPlain "class"),
      (.strPlain "module", .strPlain "m"),
      (.strPlain "class", .strPlain "C"),
      (.strPlain "data",
        .bytesPickle (.sobj ⟨"m", "C", ["C", "Serializable", "object"]⟩ 5))])
      (some [("C", .cls ⟨"m", "C", ["C", "Serializable", "object"]⟩)]) false
    = deserialize [("m", .sub [("C", .cls ⟨"m", "C", ["C", "Serializable", "object"]⟩)])]
      [] (.dict [(.strPlain "type", .strPlain "class"),
      (.strPlain "module", .strPlain "m"),
      (.strPlain "class", .strPlain "C"),
      (.strPlain "data",
        .bytesPickle (.sobj ⟨"m", "C", ["C", "Serializable", "object"]⟩ 5))])
      (some [("C", .cls ⟨"m", "C", ["C", "Serializable", "object"]⟩)]) false :=
  ⟨rfl, c4_amended [] [("m", .sub [("C", .cls ⟨"m", "C", ["C", "Serializable", "object"]⟩)])]
    [] [(.strPlain "type", .strPlain "class"),
      (.strPlain "module", .strPlain "m"),
      (.strPlain "class", .strPlain "C"),
      (.strPlain "data",
        .bytesPickle (.sobj ⟨"m", "C", ["C", "Serializable", "object"]⟩ 5))]
    [("C", .cls ⟨"m", "C", ["C", "Serializable", "object"]⟩)] false rfl⟩

/-- C4 counterexample: the same class node nested inside a Sequence,
with the same resolver supplied that contains the class, is resolved
by dynamic import after all: under the empty import system the nested
node fails with ImportError, and under an import system carrying
module m it succeeds - the recursive call dropped the resolver, so
the import system was consulted for the nested node. -/
theorem c4_cex :
    deserialize [] [] (.dict [(.strPlain "type", .strPlain "list"),
      (.strPlain "data", .list [.dict [(.strPlain "type", .strPlain "class"),
        (.strPlain "module", .strPlain "m"),
        (.strPlain "class", .strPlain "C"),
        (.strPlain "data",
          .bytesPickle (.sobj ⟨"m", "C", ["C", "Serializable", "object"]⟩ 5))]])])
      (some [("C", .cls ⟨"m", "C", ["C", "Serializable", "object"]⟩)]) false
      = .error .importError ∧
    deserialize [("m", .sub [("C", .cls ⟨"m", "C", ["C", "Serializable", "object"]⟩)])]
      [] (.dict [(.strPlain "type", .strPlain "list"),
      (.strPlain "data", .list [.dict [(.strPlain "type", .strPlain "class"),
        (.strPlain "module", .strPlain "m"),
        (.strPlain "class", .strPlain "C"),
        (.strPlain "data",
          .bytesPickle (.sobj ⟨"m", "C", ["C", "Serializable", "object"]⟩ 5))]])])
      (some [("C", .cls ⟨"m", "C", ["C", "Serializable", "object"]⟩)]) false
      = .ok (.list [.sobj ⟨"m", "C", ["C", "Serializable", "object"]⟩ 5]) := by
  constructor
  · rw [deserialize_listNode, deserializeList_cons, deserializeList_nil,
      deserialize_classNodeHead]
    rfl
  · rw [deserialize_listNode, deserializeList_cons, deserializeList_nil,
      deserialize_classNodeHead]
    rfl

/-- C5 counterexample: with only the type Base registered, both
support overloads report an instance of the strict, unregistered
subclass Sub as supported - the isinstance and issubclass checks of
SerializeHandler.support consult the whole mro, not the exact type. -/
theorem c5_cex :
    support [(⟨"m", "Base", ["Base", "object"]⟩, ⟨Option.none, Option.none⟩)]
      (.obj ⟨"m", "Sub", ["Sub", "Base", "object"]⟩ 0) = true ∧
    supportT [(⟨"m", "Base", ["Base", "object"]⟩, ⟨Option.none, Option.none⟩)]
      ⟨"m", "Sub", ["Sub", "Base", "object"]⟩ = true ∧
    lookupHandler [(⟨"m", "Base", ["Base", "object"]⟩, ⟨Option.none, Option.none⟩)]
      ⟨"m", "Sub", ["Sub", "Base", "object"]⟩ = Option.none :=
  ⟨rfl, rfl, rfl⟩

/-- C5 amended: the support check is subclass-aware: whenever some
registered type occurs in the mro of a type - in particular for any
strict subclass of a registered type - both the value overload and
the type overload of SerializeHandler.support return true, whether or
not the exact type is itself a registry key. -/
theorem c5_amended (reg : Registry) (t : PyType) (i : Nat)
    (h : ∃ p ∈ reg, p.1.qualname ∈ t.mro) :
    support reg (.obj t i) = true ∧ supportT reg t = true := by
  obtain ⟨p, hp, hq⟩ := h
  constructor
  · rw [support, List.any_eq_true]
    refine ⟨p, hp, ?_⟩
    rw [isinst, typeMRO]
    exact List.elem_eq_true_of_mem hq
  · rw [supportT, List.any_eq_true]
    refine ⟨p, hp, ?_⟩
    rw [issub]
    exact List.elem_eq_true_of_mem hq

/-- Witness for C5: Sub with Base in its mro, Base registered. -/
theorem c5_amended_witness :
    (∃ p ∈ ([(⟨"m", "Base", ["Base", "object"]⟩,
        ⟨Option.none, Option.none⟩)] : Registry),
      p.1.qualname ∈ (⟨"m", "Sub", ["Sub", "Base", "object"]⟩ : PyType).mro) ∧
    (support [(⟨"m", "Base", ["Base", "object"]⟩, ⟨Option.none, Option.none⟩)]
      (.obj ⟨"m", "Sub", ["Sub", "Base", "object"]⟩ 0) = true ∧
    supportT [(⟨"m", "Base", ["Base", "object"]⟩, ⟨Option.none, Option.none⟩)]
      ⟨"m", "Sub", ["Sub", "Base", "object"]⟩ = true) :=
  ⟨⟨(⟨"m", "Base", ["Base", "object"]⟩, ⟨Option.none, Option.none⟩),
      by simp, by simp⟩,
    c5_amended _ ⟨"m", "Sub", ["Sub", "Base", "object"]⟩ 0
      ⟨(⟨"m", "Base", ["Base", "object"]⟩, ⟨Option.none, Option.none⟩),
        by simp, by simp⟩⟩

theorem find?_eq_none_of_lookup_none {reg : Registry} {t : PyType}
    (h : lookupHandler reg t = Option.none) :
    reg.find? (fun p => p.1 == t) = Option.none := by
  rw [lookupHandler] at h
  exact (Option.map_eq_none').mp h

theorem setSerializer_fresh (reg : Registry) (t : PyType) (f : Value → Value)
    (h : lookupHandler reg t = Option.none) :
    setSerializer reg t f = reg ++ [(t, ⟨some f, Option.none⟩)] := by
  rw [setSerializer, find?_eq_none_of_lookup_none h]
  simp

theorem setSerializer_append (reg : Registry) (t : PyType) (e : HandlerEntry)
    (f : Value → Value) (h : reg.find? (fun p => p.1 == t) = Option.none) :
    setSerializer (reg ++ [(t, e)]) t f = reg ++ [(t, ⟨some f, e.deser⟩)] := by
  have hall := List.find?_eq_none.mp h
  have hfind : (reg ++ [(t, e)]).find? (fun p => p.1 == t) = some (t, e) := by
    rw [List.find?_append, h]
    simp
  rw [setSerializer, hfind]
  simp only [Option.isSome_some, if_true]
  rw [List.map_append]
  congr 1
  · rw [List.map_congr_left (fun p hp => ?_), List.map_id]
    have hb := hall p hp
    simp at hb
    simp [hb]
  · simp

theorem setDeserializer_append (reg : Registry) (t : PyType) (e : HandlerEntry)
    (g : Value → Value) (h : reg.find? (fun p => p.1 == t) = Option.none) :
    setDeserializer (reg ++ [(t, e)]) t g = reg ++ [(t, ⟨e.ser, some g⟩)] := by
  have hall := List.find?_eq_none.mp h
  have hfind : (reg ++ [(t, e)]).find? (fun p => p.1 == t) = some (t, e) := by
    rw [List.find?_append, h]
    simp
  rw [setDeserializer, hfind]
  simp only [Option.isSome_some, if_true]
  rw [List.map_append]
  congr 1
  · rw [List.map_congr_left (fun p hp => ?_), List.map_id]
    have hb := hall p hp
    simp at hb
    simp [hb]
  · simp

/-- Registering a converter pair twice on a fresh type leaves one
registry entry holding exactly the second pair. -/
theorem registerPair_twice (reg : Registry) (t : PyType)
    (f1 g1 f2 g2 : Value → Value) (h : lookupHandler reg t = Option.none) :
    setDeserializer (setSerializer (setDeserializer
      (setSerializer reg t f1) t g1) t f2) t g2
    = reg ++ [(t, ⟨some f2, some g2⟩)] := by
  have hn := find?_eq_none_of_lookup_none h
  rw [setSerializer_fresh reg t f1 h,
    setDeserializer_append reg t ⟨some f1, Option.none⟩ g1 hn,
    setSerializer_append reg t ⟨some f1, some g1⟩ f2 hn,
    setDeserializer_append reg t ⟨some f2, some g1⟩ g2 hn]

/-- C9: registering a converter pair for a fresh type and then a
second pair for the same type succeeds, and afterwards the registry
holds exactly the second pair for that type: serializeData dispatches
a value of the type (first matched by it) through the second
serializer, and the handler for the type deserializes through the
second deserializer.  The first pair is no longer reachable. -/
theorem c9_register (reg : Registry) (t : PyType) (f1 g1 f2 g2 : Value → Value)
    (v d : Value)
    (hfresh : lookupHandler reg t = Option.none)
    (hmatch : isinst v t = true)
    (hothers : ∀ p ∈ reg, isinst v p.1 = false)
    (hjson : isJsonType (f2 v) = true)
    (hdjson : isJsonType d = true) :
    lookupHandler (setDeserializer (setSerializer (setDeserializer
      (setSerializer reg t f1) t g1) t f2) t g2) t = some ⟨some f2, some g2⟩ ∧
    serializeData (setDeserializer (setSerializer (setDeserializer
      (setSerializer reg t f1) t g1) t f2) t g2) v = .ok (t, f2 v) ∧
    handlerDeserialize (handlerFor (setDeserializer (setSerializer
      (setDeserializer (setSerializer reg t f1) t g1) t f2) t g2) t) d
      = .ok (g2 d) := by
  have hn := find?_eq_none_of_lookup_none hfresh
  rw [registerPair_twice reg t f1 g1 f2 g2 hfresh]
  have hne : reg.find? (fun p => isinst v p.1) = Option.none :=
    List.find?_eq_none.mpr (fun p hp => by simp [hothers p hp])
  have hlook : lookupHandler (reg ++ [(t, ⟨some f2, some g2⟩)]) t
      = some ⟨some f2, some g2⟩ := by
    rw [lookupHandler, List.find?_append, hn]
    simp
  refine ⟨hlook, ?_, ?_⟩
  · have hsup : support (reg ++ [(t, (⟨some f2, some g2⟩ : HandlerEntry))]) v
        = true := by
      rw [support, List.any_append]
      simp [hmatch]
    have hfind : (reg ++ [(t, (⟨some f2, some g2⟩ : HandlerEntry))]).find?
        (fun p => isinst v p.1)
        = some (t, (⟨some f2, some g2⟩ : HandlerEntry)) := by
      rw [List.find?_append, hne]
      simp [hmatch]
    rw [serializeData, hsup]
    simp [hfind, handlerSerialize, hjson, Except.map]
  · rw [handlerFor, hlook, handlerDeserialize]
    simp [hdjson]

/-- Witness for C9: a fresh type T registered twice over the empty
registry, dispatching a T instance and the payload 7. -/
theorem c9_register_witness :
    lookupHandler [] ⟨"m", "T", ["T", "object"]⟩ = Option.none ∧
    isinst (Value.obj ⟨"m", "T", ["T", "object"]⟩ 0) ⟨"m", "T", ["T", "object"]⟩ = true ∧
    isJsonType ((fun _ => Value.strPlain "s") (Value.obj ⟨"m", "T", ["T", "object"]⟩ 0)) = true ∧
    isJsonType (Value.int 7) = true ∧
    (lookupHandler (setDeserializer (setSerializer (setDeserializer
      (setSerializer [] ⟨"m", "T", ["T", "object"]⟩ (fun _ => Value.int 1))
      ⟨"m", "T", ["T", "object"]⟩ (fun _ => Value.int 2))
      ⟨"m", "T", ["T", "object"]⟩ (fun _ => Value.strPlain "s"))
      ⟨"m", "T", ["T", "object"]⟩ (fun _ => Value.none)) ⟨"m", "T", ["T", "object"]⟩
      = some (⟨some (fun _ => Value.strPlain "s"),
          some (fun _ => Value.none)⟩ : HandlerEntry) ∧
    serializeData (setDeserializer (setSerializer (setDeserializer
      (setSerializer [] ⟨"m", "T", ["T", "object"]⟩ (fun _ => Value.int 1))
      ⟨"m", "T", ["T", "object"]⟩ (fun _ => Value.int 2))
      ⟨"m", "T", ["T", "object"]⟩ (fun _ => Value.strPlain "s"))
      ⟨"m", "T", ["T", "object"]⟩ (fun _ => Value.none))
      (Value.obj ⟨"m", "T", ["T", "object"]⟩ 0)
      = Except.ok ((⟨"m", "T", ["T", "object"]⟩ : PyType),
        (fun _ => Value.strPlain "s") (Value.obj ⟨"m", "T", ["T", "object"]⟩ 0)) ∧
    handlerDeserialize (handlerFor (setDeserializer (setSerializer
      (setDeserializer (setSerializer [] ⟨"m", "T", ["T", "object"]⟩
        (fun _ => Value.int 1))
      ⟨"m", "T", ["T", "object"]⟩ (fun _ => Value.int 2))
      ⟨"m", "T", ["T", "object"]⟩ (fun _ => Value.strPlain "s"))
      ⟨"m", "T", ["T", "object"]⟩ (fun _ => Value.none)) ⟨"m", "T", ["T", "object"]⟩)
      (Value.int 7) = Except.ok ((fun _ => Value.none) (Value.int 7))) :=
  ⟨rfl, rfl, rfl, rfl,
    c9_register [] ⟨"m", "T", ["T", "object"]⟩ (fun _ => Value.int 1)
      (fun _ => Value.int 2) (fun _ => Value.strPlain "s") (fun _ => Value.none)
      (Value.obj ⟨"m", "T", ["T", "object"]⟩ 0) (Value.int 7)
      rfl rfl (fun p hp => nomatch hp) rfl rfl⟩

/-- C10: the registry entry points validate JsonType on both sides:
SerializeHandler.serialize rejects with a TypeError any serializer
output that is not a JsonType tree, and SerializeHandler.deserialize
rejects non-JsonType input with a TypeError before the registered
deserializer is ever invoked - the refusal is the same whatever the
deserializer field holds, even when it is unset. -/
theorem c10_validate :
    (∀ (f : Value → Value) (de : Option (Value → Value)) (v : Value),
      isJsonType (f v) = false →
      handlerSerialize ⟨some f, de⟩ v = .error .serializerNotJson) ∧
    (∀ (se de : Option (Value → Value)) (d : Value),
      isJsonType d = false →
      handlerDeserialize ⟨se, de⟩ d = .error .dataNotJson) := by
  constructor
  · intro f de v h
    rw [handlerSerialize]
    simp [h]
  · intro se de d h
    rw [handlerDeserialize]
    simp [h]

/-- Witness for C10: a serializer returning raw bytes and a raw-bytes
input to deserialization. -/
theorem c10_validate_witness :
    isJsonType ((fun _ => Value.bytesRaw []) Value.none) = false ∧
    handlerSerialize ⟨some (fun _ => Value.bytesRaw []), Option.none⟩ Value.none
      = .error .serializerNotJson ∧
    isJsonType (Value.bytesRaw []) = false ∧
    handlerDeserialize ⟨Option.none, Option.none⟩ (Value.bytesRaw [])
      = .error .dataNotJson :=
  ⟨rfl, c10_validate.1 (fun _ => Value.bytesRaw []) Option.none Value.none rfl,
    rfl, c10_validate.2 Option.none Option.none (Value.bytesRaw []) rfl⟩

end ACom
